import Mathlib

/-!
# Verification of the AOI defect-analysis scripts

Shallow embedding of the core logic of the `Cogi-Defect` repository:

* `aoi_classify.py` — the 4-outcome classifier `classify` over per-key
  disposition counts, and its CLI entry point;
* `aoi_defect_status.py` — the loop collapser `collapse_loops`, the 3-outcome
  `assign_outcome` variant (built on `np.select`), and its CLI entry point;
* `ingest_to_db.py` — the SQLite `INSERT OR REPLACE` upsert `upsert_df`
  on the `defects` table keyed by (SerialNumber, Ref_Id, DefectCode);
* `pages/action_tracker.py` — `get_defect_counts`,
  `filter_defects_by_range`, `log_change` and `save_issue` over the
  `issues` / `issue_changelog` tables.

Dataframe rows are lists of records; machine integers are `Nat` (all the
counts in the source are non-negative sizes of pandas groups).
-/

namespace CogiDefect

/-- A collapsed row: one (SerialNumber, Ref_Id, DefectCode) key with its
three disposition counts, as produced by the groupby/unstack in
`aoi_classify.main`, `aoi_defect_status.collapse_loops` and
`ingest_to_db.process_file`.  (The real pivot table can also carry columns
for unexpected `ReworkStatus` values; neither `classify` nor
`assign_outcome` reads them, so they are not modelled.) -/
structure CollapsedRow where
  serialNumber : String
  refId : String
  defectCode : String
  falseCall : Nat   -- column "False call"
  overridden : Nat  -- column "Overridden"
  reworkable : Nat  -- column "Reworkable"
deriving DecidableEq, Repr

/-- Embedding of `aoi_classify.classify` (aoi_classify.py lines 38-48): return one of 4
outcomes for a Serial+Ref+DefectCode combo. -/
def classify (row : CollapsedRow) : String :=
  if row.falseCall > 0 then
    "False"
  else if row.reworkable = 0 ∧ row.overridden > 0 then
    "Fixed from previously caught"
  else if row.reworkable > 0 ∧ row.overridden = 0 then
    "Suspect"
  else if row.reworkable > 0 ∧ row.overridden > 0 then
    "Real"
  else
    "None"

/-- Embedding of `numpy.select` restricted to the shape used in
`aoi_defect_status.assign_outcome`: scan condition/choice pairs in order,
return the choice of the first true condition, else the default. -/
def npSelect : List Bool → List String → String → String
  | true :: _, c :: _, _ => c
  | false :: conds, _ :: choices, d => npSelect conds choices d
  | _, _, d => d

/-- The per-row outcome computed by the `np.select` call in
`aoi_defect_status.assign_outcome` (aoi_defect_status.py lines 79-83). -/
def assignOutcomeRow (row : CollapsedRow) : String :=
  npSelect
    [row.falseCall > 0, row.overridden > 0, row.reworkable > 0]
    ["False", "Real", "Suspect"]
    "None"

/-- Embedding of `aoi_defect_status.assign_outcome` (lines 78-84): attach the
`np.select` outcome to every row, then drop the rows whose outcome is
"None". -/
def assign_outcome (tbl : List CollapsedRow) : List (CollapsedRow × String) :=
  (tbl.map (fun row => (row, assignOutcomeRow row))).filter
    (fun p => p.2 ≠ "None")

/-- A raw inspection row: one AOI loop pass, as read from the export
spreadsheet.  Only the four columns consumed by
`aoi_defect_status.collapse_loops` are modelled; the metadata columns
(PartNumber, MachineName, …) are carried through untouched by the code
under verification. -/
structure RawRow where
  serialNumber : String
  refId : String
  defectCode : String
  reworkStatus : String
deriving DecidableEq, Repr

/-- The 4-part grouping key of `df.groupby(["SerialNumber", "Ref_Id",
"DefectCode", "ReworkStatus"])`. -/
def rawKey4 (row : RawRow) : String × String × String × String :=
  (row.serialNumber, row.refId, row.defectCode, row.reworkStatus)

/-- The 3-part key (SerialNumber, Ref_Id, DefectCode) that indexes the
unstacked table. -/
def rawKey3 (row : RawRow) : String × String × String :=
  (row.serialNumber, row.refId, row.defectCode)

/-- Embedding of `groupby([...4 keys...]).size()`: one entry per distinct 4-tuple
occurring in the frame, carrying the size of its group.  (pandas emits the
groups in sorted key order; the order never matters below, so the distinct
keys are taken in `dedup` order.) -/
def groupSizes (df : List RawRow) :
    List ((String × String × String × String) × Nat) :=
  (df.map rawKey4).dedup.map
    (fun k => (k, (df.filter (fun row => rawKey4 row = k)).length))

/-- One cell of `.unstack(fill_value=0)`: the size recorded for
(key3, status), or the fill value 0 when that combination has no group —
which also covers the `if col not in tbl: tbl[col] = 0` column-ensuring
loop. -/
def unstackCell (gs : List ((String × String × String × String) × Nat))
    (k : String × String × String) (status : String) : Nat :=
  ((gs.find? (fun e => e.1 = (k.1, k.2.1, k.2.2, status))).map Prod.snd).getD 0

/-- Embedding of `aoi_defect_status.collapse_loops` (lines 61-75): collapse multiple
inspection loops into one row per Serial+Ref+DefectCode, with one count
column per ReworkStatus (only the three columns the classifiers read are
modelled). -/
def collapse_loops (df : List RawRow) : List CollapsedRow :=
  (df.map rawKey3).dedup.map
    (fun k =>
      { serialNumber := k.1
        refId := k.2.1
        defectCode := k.2.2
        falseCall := unstackCell (groupSizes df) k "False call"
        overridden := unstackCell (groupSizes df) k "Overridden"
        reworkable := unstackCell (groupSizes df) k "Reworkable" })

/-- Specification-side count: the number of raw rows carrying a given key
triple and ReworkStatus value. -/
def countKeyStatus (df : List RawRow) (s r d status : String) : Nat :=
  (df.filter (fun row =>
    row.serialNumber = s ∧ row.refId = r ∧ row.defectCode = d ∧
      row.reworkStatus = status)).length

/-- Embedding of `ingest_to_db.PRIMARY_KEY` (line 32): the `defects` table is keyed by
(SerialNumber, Ref_Id, DefectCode). -/
structure DbKey where
  serialNumber : String
  refId : String
  defectCode : String
deriving DecidableEq, Repr

/-- One row of the SQLite `defects` table: the primary-key triple plus the
values of the non-key columns in the dataframe's column order.  (All
values travel as SQLite TEXT/REAL scalars; only equality of rows matters
here, so they are modelled as strings.) -/
structure DbRow where
  key : DbKey
  rest : List String
deriving DecidableEq, Repr

/-- One `INSERT OR REPLACE INTO defects` statement on a table whose
primary key is `key` (the table `ensure_table` creates, line 82): SQLite
deletes a conflicting row — same key — and inserts the new one. -/
def insertOrReplace (table : List DbRow) (row : DbRow) : List DbRow :=
  table.filter (fun r => r.key ≠ row.key) ++ [row]

/-- Embedding of `ingest_to_db.upsert_df` (lines 98-104): `executemany` of
`INSERT OR REPLACE` over the dataframe's rows, in order. -/
def upsert_df (table : List DbRow) (df : List DbRow) : List DbRow :=
  df.foldl insertOrReplace table

/-- The key column of a row list. -/
def keysOf (l : List DbRow) : List DbKey := l.map (fun r => r.key)

/-- The sublist of `df` keeping, for each key, only its last occurrence —
the net effect of replaying `INSERT OR REPLACE` over `df` in order. -/
def dedupLast : List DbRow → List DbRow
  | [] => []
  | a :: l => if a.key ∈ keysOf l then dedupLast l else a :: dedupLast l

/-- One row of the `issue_changelog` table created by
`ensure_changelog_table` (pages/action_tracker.py lines 192-207).  The
autoincrement id and the CURRENT_TIMESTAMP column are set by SQLite and
read by no code under verification, so they are not modelled. -/
structure ChangelogEntry where
  issueId : Nat
  fieldName : String
  oldValue : String
  newValue : String
  changedBy : String
deriving DecidableEq, Repr

/-- The database state the issue tracker touches: the `issues` table
(id ↦ column-name/value pairs, values already stringified exactly as
`save_issue`'s cleaning loop does before any comparison) and the
`issue_changelog` table. -/
structure TrackerDb where
  issues : List (Nat × List (String × String))
  changelog : List ChangelogEntry
deriving DecidableEq, Repr

/-- Embedding of `log_change` (lines 209-217): a single
`INSERT INTO issue_changelog (...) VALUES (...)`. -/
def log_change (db : TrackerDb) (issueId : Nat)
    (fieldName oldValue newValue changedBy : String) : TrackerDb :=
  { db with changelog :=
      db.changelog ++ [⟨issueId, fieldName, oldValue, newValue, changedBy⟩] }

/-- Embedding of `UPDATE issues SET col = ? ...`: overwrite the listed columns of a
stored row. -/
def updateRow (row : List (String × String))
    (fields : List (String × String)) : List (String × String) :=
  fields.foldl
    (fun acc kv => acc.map (fun c => if c.1 = kv.1 then (c.1, kv.2) else c))
    row

/-- Embedding of `save_issue` (lines 219-279).  `idOpt` is `some i` when the cleaned
data carries a truthy `id` (the update path) and `none` otherwise (the
insert path); `fields` are the cleaned non-id entries in dict order.  On
update: fetch the existing row, log one change per field present in it
whose stored string differs from the new value, then UPDATE; when no row
has that id nothing is fetched and the UPDATE matches no row.  On insert:
INSERT the row under a fresh id and log a single "Created" entry. -/
def save_issue (db : TrackerDb) (idOpt : Option Nat)
    (fields : List (String × String)) : TrackerDb × Nat :=
  match idOpt with
  | some issueId =>
    match db.issues.lookup issueId with
    | some existing =>
      let changed := fields.filter (fun kv =>
        (existing.lookup kv.1).isSome ∧ ¬ existing.lookup kv.1 = some kv.2)
      let db1 := changed.foldl
        (fun s kv =>
          log_change s issueId kv.1 ((existing.lookup kv.1).getD "") kv.2
            "System")
        db
      ({ issues := db1.issues.map
            (fun p => if p.1 = issueId then (p.1, updateRow p.2 fields) else p),
         changelog := db1.changelog }, issueId)
    | none => (db, issueId)
  | none =>
    let newId := (db.issues.map (fun p => p.1)).foldl max 0 + 1
    let db1 : TrackerDb :=
      { issues := db.issues ++ [(newId, fields)], changelog := db.changelog }
    let db2 := log_change db1 newId "status" "" "Created" "System"
    (db2, newId)

/-- Result of a CLI entry point's input-discovery phase: either it prints
a user-facing error to stderr and exits with status 1 before any
spreadsheet is read or written, or it goes on to read `src` and write
`dst`. -/
inductive CliAction where
  | errorExit1 : CliAction
  | run (src : String) (dst : String) : CliAction
deriving DecidableEq, Repr

/-- The `__main__` block of aoi_classify.py (lines 119-135).  `args` is
`sys.argv[1:]`; `latestRaw` is the value of `find_latest_rawdata()` — the
newest file matching "Defect RawData - *.xlsx" in the current directory,
`none` when nothing matches. -/
def aoiClassifyEntry (args : List String) (latestRaw : Option String) :
    CliAction :=
  match args with
  | [] =>
    match latestRaw with
    | none => CliAction.errorExit1
    | some src => CliAction.run src "AOI_defect_status.xlsx"
  | src :: rest => CliAction.run src (rest.headD "AOI_defect_status.xlsx")

/-- Embedding of `aoi_defect_status.main` up to its input check (lines 87-96).
`inputArg` is the optional positional argument (already `none` for a
falsy/absent value), `latestRaw` as above, `onDisk` tells whether a path
exists, `outArg` is `--out`. -/
def aoiDefectStatusEntry (inputArg : Option String)
    (latestRaw : Option String) (onDisk : String → Bool) (outArg : String) :
    CliAction :=
  match (match inputArg with | some p => some p | none => latestRaw) with
  | none => CliAction.errorExit1
  | some p =>
    if onDisk p then CliAction.run p outArg else CliAction.errorExit1

/-- A row of the dashboard defects dataframe as `get_defect_counts` reads
it: the detected date column's value (`none` for an unparseable date,
pandas `NaT`) and the `Outcome` column. -/
structure DashRow where
  date : Option Int
  outcome : String
deriving DecidableEq, Repr

/-- The defects dataframe handed to `get_defect_counts`: whether an
"Outcome" column and a plausible date/time column exist, plus the rows. -/
structure DashDf where
  hasOutcome : Bool
  hasDateCol : Bool
  rows : List DashRow
deriving DecidableEq, Repr

/-- Embedding of `filter_defects_by_range` (pages/action_tracker.py lines 106-126):
empty frames and frames without a detectable date column pass through
unchanged; otherwise keep the rows whose date lies between `start` and
`stop` inclusive (pandas `between`; `NaT` rows are dropped). -/
def filter_defects_by_range (df : DashDf) (start stop : Int) : DashDf :=
  if df.rows.isEmpty then df
  else if ¬ df.hasDateCol then df
  else { df with rows := df.rows.filter (fun r =>
      match r.date with
      | some d => start ≤ d ∧ d ≤ stop
      | none => False) }

/-- Embedding of `rng["Outcome"].value_counts().get(label, 0)`: how many rows carry a
given outcome label. -/
def outcomeCount (rows : List DashRow) (label : String) : Nat :=
  (rows.filter (fun r => r.outcome = label)).length

/-- Embedding of `get_defect_counts` (lines 91-103): the dict of AOI outcome counts
within the selected date range, as an ordered key/value list. -/
def get_defect_counts (df : DashDf) (start stop : Int) :
    List (String × Nat) :=
  if df.rows.isEmpty ∨ df.hasOutcome = false then
    [("False", 0), ("Real", 0), ("Fixed", 0), ("Suspect", 0)]
  else
    let rng := filter_defects_by_range df start stop
    [("False", outcomeCount rng.rows "False"),
     ("Real", outcomeCount rng.rows "Real"),
     ("Fixed", outcomeCount rng.rows "Fixed from previously caught"),
     ("Suspect", outcomeCount rng.rows "Suspect")]

end CogiDefect

namespace CogiDefect

/-- Lemma: `find?` on a list of `(x, f x)` pairs succeeds at the first `x = k`. -/
theorem find?_pair_of_mem {α : Type} [DecidableEq α] (f : α → Nat) (k : α)
    (xs : List α) (h : k ∈ xs) :
    (xs.map (fun x => (x, f x))).find? (fun e => e.1 = k) = some (k, f k) := by
  induction xs with
  | nil => cases h
  | cons a xs ih =>
    by_cases hak : a = k
    · subst hak
      simp [List.find?_cons_of_pos]
    · rcases List.mem_cons.mp h with h1 | h2
      · exact absurd h1.symm hak
      · rw [List.map_cons, List.find?_cons_of_neg _ (by simpa using hak)]
        exact ih h2

/-- Lemma: `find?` on a list of `(x, f x)` pairs fails when `k` is absent. -/
theorem find?_pair_of_not_mem {α : Type} [DecidableEq α] (f : α → Nat)
    (k : α) (xs : List α) (h : k ∉ xs) :
    (xs.map (fun x => (x, f x))).find? (fun e => e.1 = k) = none := by
  induction xs with
  | nil => rfl
  | cons a xs ih =>
    rw [List.map_cons,
      List.find?_cons_of_neg _
        (by simpa using fun hak : a = k => h (hak ▸ List.mem_cons_self a xs))]
    exact ih (fun hk => h (List.mem_cons_of_mem a hk))

/-- Every cell of the unstacked group-size table is the raw-row count of
its (key triple, status) combination. -/
theorem unstackCell_groupSizes (df : List RawRow)
    (k : String × String × String) (status : String) :
    unstackCell (groupSizes df) k status =
      countKeyStatus df k.1 k.2.1 k.2.2 status := by
  unfold unstackCell groupSizes countKeyStatus
  by_cases hmem : (k.1, k.2.1, k.2.2, status) ∈ (df.map rawKey4).dedup
  · rw [find?_pair_of_mem _ _ _ hmem]
    simp only [Option.map_some', Option.getD_some]
    congr 1
    apply List.filter_congr
    intro row _
    simp [rawKey4, Prod.ext_iff]
  · rw [find?_pair_of_not_mem _ _ _ hmem]
    simp only [Option.map_none', Option.getD_none]
    symm
    rw [List.length_eq_zero, List.filter_eq_nil_iff]
    intro row hrow hconj
    exact hmem (List.mem_dedup.mpr (List.mem_map.mpr ⟨row, hrow, by
      simp only [rawKey4, Prod.ext_iff]
      simp only [decide_eq_true_eq] at hconj
      tauto⟩))

/-- Replaying `INSERT OR REPLACE` over `df` keeps the old rows whose keys
`df` does not touch and ends with the last `df` row of each key. -/
theorem upsert_df_eq (table df : List DbRow) :
    upsert_df table df =
      table.filter (fun r => r.key ∉ keysOf df) ++ dedupLast df := by
  induction df generalizing table with
  | nil =>
    simp [upsert_df, keysOf, dedupLast]
  | cons a df ih =>
    have hstep : upsert_df table (a :: df) =
        upsert_df (insertOrReplace table a) df := rfl
    rw [hstep, ih]
    have hfilter : (insertOrReplace table a).filter
        (fun r => r.key ∉ keysOf df) =
        table.filter (fun r => r.key ∉ keysOf (a :: df)) ++
          [a].filter (fun r => r.key ∉ keysOf df) := by
      unfold insertOrReplace
      rw [List.filter_append]
      congr 1
      rw [List.filter_filter]
      apply List.filter_congr
      intro r _
      have hk : keysOf (a :: df) = a.key :: keysOf df := rfl
      by_cases h1 : r.key = a.key <;> by_cases h2 : r.key ∈ keysOf df <;>
        simp [hk, h1, h2]
    rw [hfilter, List.append_assoc]
    congr 1
    by_cases ha : a.key ∈ keysOf df
    · simp [dedupLast, ha]
    · simp [dedupLast, ha]

/-- Every key of `dedupLast df` is a key of `df`. -/
theorem keysOf_dedupLast_subset (df : List DbRow) :
    ∀ k ∈ keysOf (dedupLast df), k ∈ keysOf df := by
  induction df with
  | nil => intro k hk; exact absurd hk (by simp [keysOf, dedupLast])
  | cons a df ih =>
    intro k hk
    have hcons : dedupLast (a :: df) =
        if a.key ∈ keysOf df then dedupLast df else a :: dedupLast df := rfl
    have hkcons : keysOf (a :: df) = a.key :: keysOf df := rfl
    rw [hcons] at hk
    rw [hkcons, List.mem_cons]
    by_cases ha : a.key ∈ keysOf df
    · rw [if_pos ha] at hk
      exact Or.inr (ih k hk)
    · rw [if_neg ha] at hk
      have hk2 : keysOf (a :: dedupLast df) =
          a.key :: keysOf (dedupLast df) := rfl
      rw [hk2, List.mem_cons] at hk
      rcases hk with hk | hk
      · exact Or.inl hk
      · exact Or.inr (ih k hk)

/-- Lemma: `dedupLast` has pairwise-distinct keys. -/
theorem keysOf_dedupLast_nodup (df : List DbRow) :
    (keysOf (dedupLast df)).Nodup := by
  induction df with
  | nil => simp [keysOf, dedupLast]
  | cons a df ih =>
    have hcons : dedupLast (a :: df) =
        if a.key ∈ keysOf df then dedupLast df else a :: dedupLast df := rfl
    rw [hcons]
    by_cases ha : a.key ∈ keysOf df
    · rw [if_pos ha]
      exact ih
    · rw [if_neg ha]
      have hk2 : keysOf (a :: dedupLast df) =
          a.key :: keysOf (dedupLast df) := rfl
      rw [hk2]
      exact List.nodup_cons.mpr
        ⟨fun hmem => ha (keysOf_dedupLast_subset df a.key hmem), ih⟩

/-- Folding `log_change` over a list of changed fields appends exactly one
changelog entry per field, in order, and touches nothing else. -/
theorem foldl_log_change_spec (issueId : Nat)
    (existing : List (String × String)) (l : List (String × String))
    (db : TrackerDb) :
    (l.foldl
        (fun s kv =>
          log_change s issueId kv.1 ((existing.lookup kv.1).getD "") kv.2
            "System")
        db).changelog =
      db.changelog ++ l.map
        (fun kv =>
          (⟨issueId, kv.1, (existing.lookup kv.1).getD "", kv.2,
            "System"⟩ : ChangelogEntry)) ∧
    (l.foldl
        (fun s kv =>
          log_change s issueId kv.1 ((existing.lookup kv.1).getD "") kv.2
            "System")
        db).issues = db.issues := by
  induction l generalizing db with
  | nil => simp
  | cons a l ih =>
    rcases ih (log_change db issueId a.1 ((existing.lookup a.1).getD "") a.2
        "System") with ⟨h1, h2⟩
    constructor
    · rw [List.foldl_cons, h1]
      simp [log_change]
    · rw [List.foldl_cons, h2]
      rfl

end CogiDefect

namespace CogiDefect


/-- C1: whenever the "False call" count is positive, `classify` returns
"False", regardless of the "Overridden" and "Reworkable" counts. -/
theorem classify_false_call_dominates (row : CollapsedRow)
    (h : row.falseCall > 0) : classify row = "False" := by
  simp [classify, h]

/-- Witness for C1 at the concrete counts (f, o, r) = (2, 5, 7). -/
theorem classify_false_call_dominates_witness :
    classify ⟨"S1", "R1", "D1", 2, 5, 7⟩ = "False" :=
  classify_false_call_dominates ⟨"S1", "R1", "D1", 2, 5, 7⟩ (by decide)

/-- C2: with no "False call" rows, `classify` returns
"Fixed from previously caught" when only "Overridden" rows are present,
"Suspect" when only "Reworkable" rows are present, and "Real" when both
are present. -/
theorem classify_zero_false_call_cases (row : CollapsedRow)
    (hf : row.falseCall = 0) :
    (row.overridden > 0 → row.reworkable = 0 →
        classify row = "Fixed from previously caught") ∧
    (row.overridden = 0 → row.reworkable > 0 → classify row = "Suspect") ∧
    (row.overridden > 0 → row.reworkable > 0 → classify row = "Real") := by
  refine ⟨fun ho hr => ?_, fun ho hr => ?_, fun ho hr => ?_⟩ <;>
  · unfold classify
    split_ifs <;> first | rfl | omega

/-- Witness for C2 at the counts (0,3,0), (0,0,4) and (0,3,4). -/
theorem classify_zero_false_call_cases_witness :
    classify ⟨"S", "R", "D", 0, 3, 0⟩ = "Fixed from previously caught" ∧
    classify ⟨"S", "R", "D", 0, 0, 4⟩ = "Suspect" ∧
    classify ⟨"S", "R", "D", 0, 3, 4⟩ = "Real" :=
  ⟨(classify_zero_false_call_cases ⟨"S", "R", "D", 0, 3, 0⟩ rfl).1
      (by decide) rfl,
   (classify_zero_false_call_cases ⟨"S", "R", "D", 0, 0, 4⟩ rfl).2.1
      rfl (by decide),
   (classify_zero_false_call_cases ⟨"S", "R", "D", 0, 3, 4⟩ rfl).2.2
      (by decide) (by decide)⟩

/-- C3: the two classification functions disagree: on the counts
(f, o, r) = (0, 1, 0) — a triple with f + o + r > 0 — `classify` returns
"Fixed from previously caught" while the `assign_outcome` rule returns
"Real". -/
theorem classify_assign_outcome_inconsistent :
    ∃ row : CollapsedRow,
      row.falseCall + row.overridden + row.reworkable > 0 ∧
      classify row ≠ assignOutcomeRow row :=
  ⟨⟨"S", "R", "D", 0, 1, 0⟩, by decide, by decide⟩

/-- C4: `assign_outcome` is the first-match-wins 3-way rule
False > Real > Suspect; a pair belongs to the returned table exactly when
its row is an input row, its label is the `np.select` outcome, and that
outcome is not "None" (i.e. "None" rows are removed); the label
"Fixed from previously caught" never appears in the output. -/
theorem assign_outcome_first_match (tbl : List CollapsedRow) :
    (∀ row ∈ tbl, assignOutcomeRow row =
        (if row.falseCall > 0 then "False"
         else if row.overridden > 0 then "Real"
         else if row.reworkable > 0 then "Suspect"
         else "None")) ∧
    (∀ p : CollapsedRow × String,
        p ∈ assign_outcome tbl ↔
          p.1 ∈ tbl ∧ p.2 = assignOutcomeRow p.1 ∧ p.2 ≠ "None") ∧
    (∀ p ∈ assign_outcome tbl, p.2 ≠ "Fixed from previously caught") := by
  have hrule : ∀ row : CollapsedRow, assignOutcomeRow row =
      (if row.falseCall > 0 then "False"
       else if row.overridden > 0 then "Real"
       else if row.reworkable > 0 then "Suspect"
       else "None") := by
    intro row
    by_cases hf : row.falseCall > 0 <;> by_cases ho : row.overridden > 0 <;>
      by_cases hr : row.reworkable > 0 <;>
      simp [assignOutcomeRow, npSelect, hf, ho, hr]
  have hmem : ∀ p : CollapsedRow × String,
      p ∈ assign_outcome tbl ↔
        p.1 ∈ tbl ∧ p.2 = assignOutcomeRow p.1 ∧ p.2 ≠ "None" := by
    intro p
    constructor
    · intro hp
      rcases List.mem_filter.mp hp with ⟨hmap, hne⟩
      rcases List.mem_map.mp hmap with ⟨row, hrow, heq⟩
      subst heq
      exact ⟨hrow, rfl, by simpa using hne⟩
    · rintro ⟨h1, h2, h3⟩
      refine List.mem_filter.mpr ⟨?_, by simpa using h3⟩
      exact List.mem_map.mpr ⟨p.1, h1, by rw [← h2]⟩
  refine ⟨fun row _ => hrule row, hmem, fun p hp => ?_⟩
  rcases (hmem p).mp hp with ⟨-, h2, -⟩
  rw [h2, hrule p.1]
  split_ifs <;> decide

/-- Witness for C4 at a one-row table with counts (0, 2, 3): the pair
(row, "Real") is in the output. -/
theorem assign_outcome_first_match_witness :
    (⟨"S", "R", "D", 0, 2, 3⟩, "Real") ∈
      assign_outcome [⟨"S", "R", "D", 0, 2, 3⟩] :=
  ((assign_outcome_first_match [⟨"S", "R", "D", 0, 2, 3⟩]).2.1
      (⟨"S", "R", "D", 0, 2, 3⟩, "Real")).mpr
    ⟨by decide, by decide, by decide⟩

/-- C5: `classify` returns "None" exactly on the all-zero counts, so on
every collapsed row with f + o + r > 0 the fallback branch is never
taken. -/
theorem classify_none_only_all_zero (row : CollapsedRow) :
    (classify row = "None" ↔
      row.falseCall = 0 ∧ row.overridden = 0 ∧ row.reworkable = 0) ∧
    (row.falseCall + row.overridden + row.reworkable > 0 →
      classify row ≠ "None") := by
  have hiff : classify row = "None" ↔
      row.falseCall = 0 ∧ row.overridden = 0 ∧ row.reworkable = 0 := by
    unfold classify
    split_ifs <;> simp <;> omega
  refine ⟨hiff, fun hpos hnone => ?_⟩
  rcases hiff.mp hnone with ⟨h1, h2, h3⟩
  omega

/-- Witness for C5 at the counts (0, 0, 1). -/
theorem classify_none_only_all_zero_witness :
    classify ⟨"S", "R", "D", 0, 0, 1⟩ ≠ "None" :=
  (classify_none_only_all_zero ⟨"S", "R", "D", 0, 0, 1⟩).2 (by decide)

/-- C7: `collapse_loops` emits exactly one output row per distinct
(SerialNumber, Ref_Id, DefectCode) triple present in the input, and in
each output row every disposition column equals the number of raw input
rows carrying that key triple and that ReworkStatus value (0 when no such
raw row exists, the disposition column then being filled in). -/
theorem collapse_loops_counts (df : List RawRow) :
    ((collapse_loops df).map
        (fun c => (c.serialNumber, c.refId, c.defectCode))).Nodup ∧
    (∀ s r d : String,
        (s, r, d) ∈ (collapse_loops df).map
            (fun c => (c.serialNumber, c.refId, c.defectCode)) ↔
          ∃ row ∈ df,
            row.serialNumber = s ∧ row.refId = r ∧ row.defectCode = d) ∧
    (∀ c ∈ collapse_loops df,
        c.falseCall =
          countKeyStatus df c.serialNumber c.refId c.defectCode "False call" ∧
        c.overridden =
          countKeyStatus df c.serialNumber c.refId c.defectCode "Overridden" ∧
        c.reworkable =
          countKeyStatus df c.serialNumber c.refId c.defectCode "Reworkable") := by
  have hproj : (collapse_loops df).map
      (fun c => (c.serialNumber, c.refId, c.defectCode)) =
      (df.map rawKey3).dedup := by
    unfold collapse_loops
    rw [List.map_map]
    have hid : ((fun c : CollapsedRow => (c.serialNumber, c.refId, c.defectCode)) ∘
        (fun k : String × String × String =>
          ({ serialNumber := k.1, refId := k.2.1, defectCode := k.2.2,
             falseCall := unstackCell (groupSizes df) k "False call",
             overridden := unstackCell (groupSizes df) k "Overridden",
             reworkable := unstackCell (groupSizes df) k "Reworkable" } :
            CollapsedRow))) = id := by
      funext k
      rfl
    rw [hid, List.map_id]
  refine ⟨?_, ?_, ?_⟩
  · rw [hproj]
    exact (df.map rawKey3).nodup_dedup
  · intro s r d
    rw [hproj]
    simp [List.mem_dedup, List.mem_map, rawKey3, Prod.ext_iff]
  · intro c hc
    unfold collapse_loops at hc
    rcases List.mem_map.mp hc with ⟨k, -, rfl⟩
    exact ⟨unstackCell_groupSizes df k "False call",
      unstackCell_groupSizes df k "Overridden",
      unstackCell_groupSizes df k "Reworkable"⟩

/-- Witness for C7 on a three-row input concentrated on a single key
triple: counts (f, o, r) = (0, 1, 2). -/
theorem collapse_loops_counts_witness :
    (0 : Nat) = countKeyStatus
        [⟨"S1", "R1", "D1", "Reworkable"⟩, ⟨"S1", "R1", "D1", "Overridden"⟩,
         ⟨"S1", "R1", "D1", "Reworkable"⟩] "S1" "R1" "D1" "False call" ∧
    (1 : Nat) = countKeyStatus
        [⟨"S1", "R1", "D1", "Reworkable"⟩, ⟨"S1", "R1", "D1", "Overridden"⟩,
         ⟨"S1", "R1", "D1", "Reworkable"⟩] "S1" "R1" "D1" "Overridden" ∧
    (2 : Nat) = countKeyStatus
        [⟨"S1", "R1", "D1", "Reworkable"⟩, ⟨"S1", "R1", "D1", "Overridden"⟩,
         ⟨"S1", "R1", "D1", "Reworkable"⟩] "S1" "R1" "D1" "Reworkable" :=
  (collapse_loops_counts
      [⟨"S1", "R1", "D1", "Reworkable"⟩, ⟨"S1", "R1", "D1", "Overridden"⟩,
       ⟨"S1", "R1", "D1", "Reworkable"⟩]).2.2
    ⟨"S1", "R1", "D1", 0, 1, 2⟩ (by decide)

/-- C6: starting from a `defects` table whose key column is
duplicate-free (as `ensure_table`'s PRIMARY KEY guarantees), `upsert_df`
leaves at most one row per (SerialNumber, Ref_Id, DefectCode) triple, and
upserting the same dataframe a second time replaces rows instead of
appending: the table is exactly the one a single ingestion produces. -/
theorem upsert_df_unique_key_idempotent (table df : List DbRow)
    (h : (keysOf table).Nodup) :
    (keysOf (upsert_df table df)).Nodup ∧
    upsert_df (upsert_df table df) df = upsert_df table df := by
  constructor
  · rw [upsert_df_eq]
    have hkeys : keysOf
        (table.filter (fun r => r.key ∉ keysOf df) ++ dedupLast df) =
        keysOf (table.filter (fun r => r.key ∉ keysOf df)) ++
          keysOf (dedupLast df) := by
      simp [keysOf]
    rw [hkeys]
    apply List.Nodup.append
    · exact h.sublist (List.Sublist.map _ (List.filter_sublist _))
    · exact keysOf_dedupLast_nodup df
    · intro k hk1 hk2
      simp only [keysOf] at hk1
      rcases List.mem_map.mp hk1 with ⟨r, hr, rfl⟩
      have hpred := List.of_mem_filter hr
      simp only [decide_not, Bool.not_eq_true', decide_eq_false_iff_not] at hpred
      exact hpred (keysOf_dedupLast_subset df _ hk2)
  · rw [upsert_df_eq table df, upsert_df_eq, List.filter_append]
    have h1 : (table.filter (fun r => r.key ∉ keysOf df)).filter
        (fun r => r.key ∉ keysOf df) =
        table.filter (fun r => r.key ∉ keysOf df) := by
      rw [List.filter_filter]
      apply List.filter_congr
      intro r _
      by_cases hr : r.key ∈ keysOf df <;> simp [hr]
    have h2 : (dedupLast df).filter (fun r => r.key ∉ keysOf df) = [] := by
      rw [List.filter_eq_nil_iff]
      intro r hr
      simp only [decide_not, Bool.not_eq_true', decide_eq_false_iff_not,
        Decidable.not_not]
      exact keysOf_dedupLast_subset df r.key (List.mem_map.mpr ⟨r, hr, rfl⟩)
    rw [h1, h2, List.append_nil]

/-- Witness for C6: empty initial table, a single-row dataframe. -/
theorem upsert_df_unique_key_idempotent_witness :
    (keysOf (upsert_df [] [⟨⟨"S1", "R1", "D1"⟩, ["x"]⟩])).Nodup ∧
    upsert_df (upsert_df [] [⟨⟨"S1", "R1", "D1"⟩, ["x"]⟩])
        [⟨⟨"S1", "R1", "D1"⟩, ["x"]⟩] =
      upsert_df [] [⟨⟨"S1", "R1", "D1"⟩, ["x"]⟩] :=
  upsert_df_unique_key_idempotent [] [⟨⟨"S1", "R1", "D1"⟩, ["x"]⟩]
    (by decide)

/-- C8: the `issue_changelog` table is append-only — `log_change` and
`save_issue` only ever extend it, never rewriting the existing rows — and
when `save_issue` updates an existing issue it appends exactly one entry
per stored field whose value, compared as a string, differs from the
newly supplied one, and none for unchanged fields. -/
theorem save_issue_changelog_append_only (db : TrackerDb)
    (idOpt : Option Nat) (fields : List (String × String)) :
    (∀ issueId fieldName oldValue newValue changedBy,
        (log_change db issueId fieldName oldValue newValue
            changedBy).changelog =
          db.changelog ++
            [⟨issueId, fieldName, oldValue, newValue, changedBy⟩]) ∧
    (∃ appended, (save_issue db idOpt fields).1.changelog =
        db.changelog ++ appended) ∧
    (∀ issueId existing, idOpt = some issueId →
        db.issues.lookup issueId = some existing →
        (save_issue db idOpt fields).1.changelog =
          db.changelog ++
            (fields.filter (fun kv =>
                (existing.lookup kv.1).isSome ∧
                  ¬ existing.lookup kv.1 = some kv.2)).map
              (fun kv =>
                ⟨issueId, kv.1, (existing.lookup kv.1).getD "", kv.2,
                  "System"⟩)) := by
  refine ⟨fun issueId fieldName oldValue newValue changedBy => rfl, ?_, ?_⟩
  · match hid : idOpt with
    | none =>
      exact ⟨[⟨(db.issues.map (fun p => p.1)).foldl max 0 + 1, "status", "",
        "Created", "System"⟩], rfl⟩
    | some issueId =>
      match hlook : db.issues.lookup issueId with
      | none =>
        refine ⟨[], ?_⟩
        simp [save_issue, hlook]
      | some existing =>
        refine ⟨(fields.filter (fun kv =>
            (existing.lookup kv.1).isSome ∧
              ¬ existing.lookup kv.1 = some kv.2)).map
          (fun kv =>
            (⟨issueId, kv.1, (existing.lookup kv.1).getD "", kv.2,
              "System"⟩ : ChangelogEntry)), ?_⟩
        simp only [save_issue, hlook]
        exact (foldl_log_change_spec issueId existing _ db).1
  · intro issueId existing hid hlook
    subst hid
    simp only [save_issue, hlook]
    exact (foldl_log_change_spec issueId existing _ db).1

/-- Witness for C8: updating issue 1 whose stored `status` is "Open" and
`line_name` is "L1" with `status` = "Closed", `line_name` = "L1" appends
exactly the one entry for `status`. -/
theorem save_issue_changelog_append_only_witness :
    (save_issue ⟨[(1, [("status", "Open"), ("line_name", "L1")])], []⟩
        (some 1) [("status", "Closed"), ("line_name", "L1")]).1.changelog =
      [⟨1, "status", "Open", "Closed", "System"⟩] :=
  ((save_issue_changelog_append_only
        ⟨[(1, [("status", "Open"), ("line_name", "L1")])], []⟩ (some 1)
        [("status", "Closed"), ("line_name", "L1")]).2.2 1
      [("status", "Open"), ("line_name", "L1")] rfl (by decide)).trans
    (by decide)

/-- C9: with no input file on the command line and no file matching
"Defect RawData - *.xlsx" in the current directory, both CLI entry points
take the error path — stderr message and exit status 1 — before reading
any spreadsheet or writing any output (regardless of which paths exist on
disk or of the --out argument). -/
theorem cli_no_input_error_exit (onDisk : String → Bool) (outArg : String) :
    aoiClassifyEntry [] none = CliAction.errorExit1 ∧
    aoiDefectStatusEntry none none onDisk outArg = CliAction.errorExit1 :=
  ⟨rfl, rfl⟩

/-- Witness for C9 with a concrete disk predicate and --out value. -/
theorem cli_no_input_error_exit_witness :
    aoiClassifyEntry [] none = CliAction.errorExit1 ∧
    aoiDefectStatusEntry none none (fun _ => true) "AOI_defect_status.xlsx" =
      CliAction.errorExit1 :=
  cli_no_input_error_exit (fun _ => true) "AOI_defect_status.xlsx"

/-- C10: `get_defect_counts` always returns a dict whose keys are exactly
"False", "Real", "Fixed", "Suspect" (counts are naturals, hence
non-negative), with all-zero values on an empty frame or one lacking an
"Outcome" column, and otherwise its "Fixed" entry counts the rows of the
range-filtered frame whose Outcome is the long label
"Fixed from previously caught" — not the literal string "Fixed". -/
theorem get_defect_counts_keys_and_fixed (df : DashDf) (start stop : Int) :
    ((get_defect_counts df start stop).map Prod.fst =
      ["False", "Real", "Fixed", "Suspect"]) ∧
    (df.rows.isEmpty ∨ df.hasOutcome = false →
      (get_defect_counts df start stop).lookup "Fixed" = some 0) ∧
    (¬ (df.rows.isEmpty ∨ df.hasOutcome = false) →
      (get_defect_counts df start stop).lookup "Fixed" =
        some ((filter_defects_by_range df start stop).rows.filter
            (fun r => r.outcome = "Fixed from previously caught")).length) := by
  by_cases h : df.rows.isEmpty ∨ df.hasOutcome = false
  · refine ⟨?_, fun _ => ?_, fun hcon => absurd h hcon⟩ <;>
    · simp only [get_defect_counts, if_pos h]
      rfl
  · refine ⟨?_, fun hcon => absurd hcon h, fun _ => ?_⟩ <;>
    · simp only [get_defect_counts, if_neg h]
      rfl

/-- Witness for C10: three rows, of which one carries the long label in
range, one carries the literal "Fixed" outside any counting, and one is
out of the date range — the "Fixed" entry is 1. -/
theorem get_defect_counts_keys_and_fixed_witness :
    (get_defect_counts
        ⟨true, true,
          [⟨some 5, "Fixed from previously caught"⟩, ⟨some 7, "Fixed"⟩,
           ⟨some 20, "Fixed from previously caught"⟩]⟩ 0 10).lookup "Fixed" =
      some 1 :=
  ((get_defect_counts_keys_and_fixed
        ⟨true, true,
          [⟨some 5, "Fixed from previously caught"⟩, ⟨some 7, "Fixed"⟩,
           ⟨some 20, "Fixed from previously caught"⟩]⟩ 0 10).2.2
      (by decide)).trans (by decide)

end CogiDefect
